import Mathlib

/-!
Shallow embedding of the apx dev-server reverse proxy
(`src/apx/cli/dev/proxy.py`, class `ProxyManager`) together with the
constants it draws from `src/apx/constants.py`.

Python string primitives are embedded as functions on the character
list of a `String`, with the exact semantics of the Python builtins
used by the source (`str.rstrip("/")`, `str.startswith`, `str.lower`,
`str.split`, `str.rsplit(sep, 1)[-1]`, `str.isalnum`, `len`,
f-string `<`/`>` padding and slicing).  Python `dict`s (insertion
ordered, assignment updates in place or appends) are embedded as
association lists with an update-or-append operation.
-/

namespace ApxProxy

/-- Embeds Python `s.rstrip("/")`: removes every trailing `/` character. -/
def pyRstripSlash (s : String) : String :=
  String.mk ((s.data.reverse.dropWhile (fun c => c = '/')).reverse)

/-- Embeds Python `s.startswith(p)`: `p` is a literal character-sequence
starting segment of `s`. -/
def pyStartsWith (s p : String) : Bool :=
  p.data.isPrefixOf s.data

/-- Embeds Python `s.lower()` for the ASCII header names the proxy
compares (`k.lower()`). -/
def pyLower (s : String) : String :=
  String.mk (s.data.map Char.toLower)

/-- Embeds Python `c in s` for a one-character needle. -/
def pyContainsChar (s : String) (c : Char) : Bool :=
  s.data.contains c

/-- Embeds Python `s.split(sep)` for a one-character separator, on
character lists: always returns at least one (possibly empty) group. -/
def pySplitChar (sep : Char) : List Char → List (List Char)
  | [] => [[]]
  | c :: cs =>
      let r := pySplitChar sep cs
      if c = sep then [] :: r
      else
        match r with
        | g :: gs => (c :: g) :: gs
        | [] => [[c]]

/-- Embeds Python `s.split(sep)[-1]` for a one-character separator. -/
def pyLastSplit (s : String) (sep : Char) : String :=
  String.mk ((pySplitChar sep s.data).getLastD [])

/-- Embeds Python `s.isalnum()`: non-empty and every character
alphanumeric. -/
def pyIsAlnum (s : String) : Bool :=
  !s.data.isEmpty && s.data.all Char.isAlphanum

/-- Embeds Python `f"{s:<w}"`: left-justify by padding with spaces. -/
def pyLJust (s : String) (w : Nat) : String :=
  String.mk (s.data ++ List.replicate (w - s.data.length) ' ')

/-- Embeds Python `f"{s:>w}"`: right-justify by padding with spaces. -/
def pyRJust (s : String) (w : Nat) : String :=
  String.mk (List.replicate (w - s.data.length) ' ' ++ s.data)

/-- Embeds Python `s[:n]`: the first `n` characters. -/
def pyTake (s : String) (n : Nat) : String :=
  String.mk (s.data.take n)

/-- Embeds Python `len(s)`. -/
def pyLen (s : String) : Nat :=
  s.data.length

/-! Python `dict` embedding: insertion-ordered association list.
`d[k] = v` updates the value in place when the key is present and
appends otherwise. -/

/-- Embeds Python `d[k] = v` on an insertion-ordered dict: when the key
is present its (unique) entry is updated in place, otherwise the pair
is appended. -/
def dictSet (d : List (String × String)) (k v : String) : List (String × String) :=
  match d with
  | [] => [(k, v)]
  | kv :: rest => if kv.1 = k then (k, v) :: rest else kv :: dictSet rest k v

/-- Embeds a Python dict comprehension over a key-value sequence
(later duplicates overwrite earlier ones). -/
def dictOfItems (items : List (String × String)) : List (String × String) :=
  items.foldl (fun d kv => dictSet d kv.1 kv.2) []

/-- Embeds Python `d.get(k)` / `d[k]` lookup on the embedded dict. -/
def dictLookup (d : List (String × String)) (k : String) : Option String :=
  (d.find? (fun kv => kv.1 = k)).map (fun kv => kv.2)

/-- Embeds Starlette `request.headers.get(name, default)`: the raw
header pairs are scanned for the first key equal (case-insensitively)
to `name`. -/
def starletteHeadersGet (hs : List (String × String)) (name dflt : String) : String :=
  match hs.find? (fun kv => pyLower kv.1 = pyLower name) with
  | some kv => kv.2
  | none => dflt

/-- Embeds httpx `response.headers.get(name)` (case-insensitive,
`None` when absent). -/
def httpxHeadersGet (hs : List (String × String)) (name : String) : Option String :=
  (hs.find? (fun kv => pyLower kv.1 = pyLower name)).map (fun kv => kv.2)

/-! Constants from `src/apx/constants.py`. -/

/-- Embeds `APX_DEV_PROXY_HEADER = "x-apx-dev-proxy"`. -/
def APX_DEV_PROXY_HEADER : String := "x-apx-dev-proxy"

/-- Embeds `DEFAULT_API_PREFIX = "/api"` (the default API path marker). -/
def DEFAULT_API_PREFIX_CONST : String := "/api"

/-! Data model of `ProxyManager`. -/

/-- Embeds the mutable state of `ProxyManager`: the configured URLs and
API path marker (stored already right-stripped of `/` by `__init__`),
the `accepting_connections` gate, and `_active_websockets` (the set of
running WebSocket session tasks, identified here by natural numbers). -/
structure ProxyManager where
  frontend_url : String
  backend_url : String
  apiPre : String
  ws_open_timeout_seconds : ℚ
  accepting_connections : Bool
  active_websockets : Finset ℕ
deriving DecidableEq

/-- Embeds `ProxyManager.__init__`: every URL and the API path marker
are right-stripped of `/`, the gate starts `True`, the registry starts
empty. -/
def ProxyManager.init (frontend backend : String)
    (apiPre : String := DEFAULT_API_PREFIX_CONST)
    (wsTimeout : ℚ := 4) : ProxyManager :=
  { frontend_url := pyRstripSlash frontend
    backend_url := pyRstripSlash backend
    apiPre := pyRstripSlash apiPre
    ws_open_timeout_seconds := wsTimeout
    accepting_connections := true
    active_websockets := ∅ }

/-- Embeds `ProxyManager._get_target_url`: backend URL when the path
starts with the configured API path marker, frontend URL otherwise. -/
def ProxyManager.getTargetUrl (pm : ProxyManager) (path : String) : String :=
  if pyStartsWith path pm.apiPre then pm.backend_url else pm.frontend_url

/-- Embeds `ProxyManager._is_api_route`. -/
def ProxyManager.isApiRoute (pm : ProxyManager) (path : String) : Bool :=
  pyStartsWith path pm.apiPre

/-- Embeds `ProxyManager._get_target_name`: `"api"` or `"ui"`. -/
def ProxyManager.getTargetName (pm : ProxyManager) (path : String) : String :=
  if pm.isApiRoute path then "api" else "ui"

/-- Embeds `ProxyManager._is_file_path`: the last path segment has an
extension of at most 10 alphanumeric characters after its last dot. -/
def is_file_path (path : String) : Bool :=
  let last_segment :=
    if pyContainsChar path '/' then pyLastSplit (pyRstripSlash path) '/' else path
  if pyContainsChar last_segment '.' then
    let ext := pyLastSplit last_segment '.'
    pyIsAlnum ext && pyLen ext ≤ 10
  else
    false

/-! Fixed-width log formatting helpers
(`_format_method_fixed`, `_format_path_fixed`, `_format_target_fixed`,
`_format_duration_ms_fixed`). -/

/-- Embeds `_format_method_fixed`: `f"{method:<7}"`. -/
def format_method_fixed (m : String) : String := pyLJust m 7

/-- Embeds `_format_path_fixed`: paths longer than 50 characters are
cut to 47 characters plus `"..."`, shorter ones padded to width 50. -/
def format_path_fixed (p : String) : String :=
  if 50 < pyLen p then pyTake p 47 ++ "..." else pyLJust p 50

/-- Embeds `_format_target_fixed`: `f"{target:<3}"[:3]`. -/
def format_target_fixed (t : String) : String := pyTake (pyLJust t 3) 3

/-- Embeds `_format_duration_ms_fixed`: `f"{duration_ms:>10}ms"`. -/
def format_duration_ms_fixed (d : Nat) : String := pyRJust (toString d) 10 ++ "ms"

/-- Log record levels accepted by the logger collaborator. -/
inductive LogLevel where
  | info
  | warning
deriving DecidableEq

/-- Embeds `ProxyManager._log_request`: `none` when the line is
suppressed (UI target and file-looking path), otherwise the
`info`-level line handed to the logger. -/
def ProxyManager.log_request (pm : ProxyManager) (method path : String)
    (status_code duration_ms : Nat) : Option (LogLevel × String) :=
  let target := pm.getTargetName path
  if target = "ui" && is_file_path path then
    none
  else
    some (LogLevel.info,
      format_method_fixed method ++ " " ++ format_path_fixed path ++ " -> "
        ++ format_target_fixed target ++ " | " ++ pyRJust (toString status_code) 3
        ++ " | " ++ format_duration_ms_fixed duration_ms)

/-- Embeds `ProxyManager._log_request_error`: the same suppression
condition as `_log_request`, and a `warning`-level line carrying the
error text. -/
def ProxyManager.log_request_error (pm : ProxyManager) (method path : String)
    (status_code : Nat) (error : String) (duration_ms : Nat) :
    Option (LogLevel × String) :=
  let target := pm.getTargetName path
  if target = "ui" && is_file_path path then
    none
  else
    some (LogLevel.warning,
      format_method_fixed method ++ " " ++ format_path_fixed path ++ " -> "
        ++ format_target_fixed target ++ " | " ++ pyRJust (toString status_code) 3
        ++ " | " ++ format_duration_ms_fixed duration_ms ++ " | " ++ error)

/-! HTTP relay (`proxy_http` and `proxy_http_streaming`). -/

/-- Embeds the inbound Starlette `Request` fields the proxy reads:
method, `url.path`, `url.query`, `url.scheme`, the raw header pairs,
`request.client.host` (`none` when `request.client` is `None`) and the
request body. -/
structure Request where
  method : String
  path : String
  query : String
  scheme : String
  headers : List (String × String)
  clientHost : Option String
  body : List Nat
deriving DecidableEq

/-- Embeds the set `hop_by_hop` built identically in `proxy_http` and
`proxy_http_streaming`. -/
def hopByHop : List String :=
  ["connection", "keep-alive", "proxy-authenticate", "proxy-authorization",
   "te", "trailers", "transfer-encoding", "upgrade"]

/-- Embeds the outbound header construction shared verbatim by
`proxy_http` and `proxy_http_streaming`: the inbound headers minus the
hop-by-hop set and `host` (case-insensitively), then the three
`x-forwarded-*` assignments, then the dev-proxy marker for non-API
paths. -/
def buildForwardHeaders (pm : ProxyManager) (req : Request) : List (String × String) :=
  let headers := dictOfItems (req.headers.filter
    (fun kv => !(hopByHop.contains (pyLower kv.1)) && pyLower kv.1 != "host"))
  let client_host := match req.clientHost with
    | some h => h
    | none => "unknown"
  let headers := dictSet headers "x-forwarded-for" client_host
  let headers := dictSet headers "x-forwarded-proto" req.scheme
  let headers := dictSet headers "x-forwarded-host" (starletteHeadersGet req.headers "host" "")
  if !pm.isApiRoute req.path then
    dictSet headers APX_DEV_PROXY_HEADER "true"
  else
    headers

/-- Embeds the outbound request both relays hand to the pooled httpx
client: target URL (resolved base, path, unchanged query string),
forwarded headers, method and body. -/
structure OutboundRequest where
  url : String
  method : String
  headers : List (String × String)
  body : List Nat
deriving DecidableEq

/-- Embeds the target-URL concatenation and header construction both
relays perform before contacting the upstream. -/
def ProxyManager.buildOutbound (pm : ProxyManager) (req : Request) : OutboundRequest :=
  let target_base := pm.getTargetUrl req.path
  let target_url :=
    if req.query != "" then target_base ++ req.path ++ "?" ++ req.query
    else target_base ++ req.path
  { url := target_url
    method := req.method
    headers := buildForwardHeaders pm req
    body := req.body }

/-- Embeds the upstream outcome of one relayed exchange: either a
response, or one of the httpx exception classes the relays catch
(`httpx.ConnectError`, `httpx.TimeoutException`) or any other
exception, each carrying its `str(e)` text. -/
inductive UpstreamOutcome where
  | ok (status : Nat) (headers : List (String × String)) (body : List Nat)
  | connectError (msg : String)
  | timeoutExc (msg : String)
  | otherExc (msg : String)
deriving DecidableEq

/-- Embeds the body of the Starlette `Response`/`StreamingResponse`
the relay returns: either the upstream bytes relayed through, or a
plain-text body the proxy writes itself. -/
inductive RespBody where
  | fromUpstream (b : List Nat)
  | text (s : String)
deriving DecidableEq

/-- Embeds the client-visible result of one relayed HTTP exchange:
status code, body, response headers, and `media_type`. -/
structure HttpResult where
  status : Nat
  body : RespBody
  headers : List (String × String)
  mediaType : Option String
deriving DecidableEq

/-- Embeds the response-header copy loop both relays run over
`response.headers.multi_items()`: hop-by-hop keys are skipped, the
rest assigned into a fresh dict. -/
def filterResponseHeaders (hs : List (String × String)) : List (String × String) :=
  hs.foldl
    (fun d kv => if hopByHop.contains (pyLower kv.1) then d else dictSet d kv.1 kv.2)
    []

/-- Embeds `ProxyManager.proxy_http`.  The second component records
the outbound request issued to the upstream (`none` when the gate
rejected the call before contacting any upstream).  The exception
handlers appear in source order: `httpx.ConnectError`,
`httpx.TimeoutException`, then the generic `except Exception`. -/
def ProxyManager.proxy_http (pm : ProxyManager) (req : Request)
    (up : UpstreamOutcome) : HttpResult × Option OutboundRequest :=
  if !pm.accepting_connections then
    (⟨503, RespBody.text "Server is shutting down", [], some "text/plain"⟩, none)
  else
    let result :=
      match up with
      | UpstreamOutcome.ok st hs body =>
          ⟨st, RespBody.fromUpstream body, filterResponseHeaders hs,
            httpxHeadersGet hs "content-type"⟩
      | UpstreamOutcome.connectError _ =>
          ⟨502, RespBody.text ("Failed to connect to " ++ pm.getTargetName req.path ++ " server"),
            [], some "text/plain"⟩
      | UpstreamOutcome.timeoutExc _ =>
          ⟨504, RespBody.text "Request timed out", [], some "text/plain"⟩
      | UpstreamOutcome.otherExc msg =>
          ⟨500, RespBody.text ("Proxy error: " ++ msg), [], some "text/plain"⟩
    (result, some (pm.buildOutbound req))

/-- Embeds `ProxyManager.proxy_http_streaming`.  Identical gate,
outbound construction and `httpx.ConnectError` handling, but its
`try` block is followed only by `except httpx.ConnectError` and
`except Exception`: a `httpx.TimeoutException` (a subclass of
`Exception`) is caught by the generic clause and produces
`500`/`"Proxy error: ..."`. -/
def ProxyManager.proxy_http_streaming (pm : ProxyManager) (req : Request)
    (up : UpstreamOutcome) : HttpResult × Option OutboundRequest :=
  if !pm.accepting_connections then
    (⟨503, RespBody.text "Server is shutting down", [], some "text/plain"⟩, none)
  else
    let result :=
      match up with
      | UpstreamOutcome.ok st hs body =>
          ⟨st, RespBody.fromUpstream body, filterResponseHeaders hs,
            httpxHeadersGet hs "content-type"⟩
      | UpstreamOutcome.connectError _ =>
          ⟨502, RespBody.text ("Failed to connect to " ++ pm.getTargetName req.path ++ " server"),
            [], some "text/plain"⟩
      | UpstreamOutcome.timeoutExc msg =>
          ⟨500, RespBody.text ("Proxy error: " ++ msg), [], some "text/plain"⟩
      | UpstreamOutcome.otherExc msg =>
          ⟨500, RespBody.text ("Proxy error: " ++ msg), [], some "text/plain"⟩
    (result, some (pm.buildOutbound req))

/-! WebSocket relay (`proxy_websocket`). -/

/-- Embeds the gate check at the top of `proxy_websocket`: when the
proxy is not accepting connections the inbound upgrade is closed with
code 1001 before `accept()` is ever called; otherwise the session
proceeds (accept, dial, pumps). -/
inductive WsUpgradeDecision where
  | rejected (code : Nat) (reason : String)
  | proceeded
deriving DecidableEq

/-- Embeds lines 439-442 of `proxy_websocket`: the gate decision made
before any upstream contact or registration. -/
def ProxyManager.ws_gate (pm : ProxyManager) : WsUpgradeDecision :=
  if !pm.accepting_connections then
    WsUpgradeDecision.rejected 1001 "Server is shutting down"
  else
    WsUpgradeDecision.proceeded

/-- Embeds one inbound ASGI WebSocket message as read by
`forward_to_target`: a text frame, a bytes frame, or a
`websocket.disconnect` event whose `code`/`reason` fields may be
absent (Python `data.get("code", 1000)` / `data.get("reason", "")`). -/
inductive WsClientMsg where
  | text (s : String)
  | bytes (b : List Nat)
  | disconnect (code : Option Nat) (reason : Option String)
deriving DecidableEq

/-- Embeds the client-to-upstream pump `forward_to_target` over the
sequence of messages the inbound socket yields: frames before the
first disconnect event are forwarded verbatim in order; the first
disconnect event stops the pump and captures its close code (default
1000) and reason (default `""`). -/
def forward_to_target : List WsClientMsg → List WsClientMsg × Option (Nat × String)
  | [] => ([], none)
  | WsClientMsg.disconnect c r :: _ => ([], some (c.getD 1000, r.getD ""))
  | m :: rest =>
      let x := forward_to_target rest
      (m :: x.1, x.2)

/-- Embeds the upstream `ClientConnection`'s own close attributes
(`close_code : Optional[int]`, `close_reason : Optional[str]`) read in
the `finally` block. -/
structure TargetWs where
  close_code : Option Nat
  close_reason : Option String
deriving DecidableEq

/-- Embeds the session-local variables `ws_close_code`,
`ws_close_reason` and `target_ws` as they stand when the `finally`
block of `proxy_websocket` starts. -/
structure WsVars where
  ws_close_code : Option Nat
  ws_close_reason : Option String
  target_ws : Option TargetWs
deriving DecidableEq

/-- Builds the `finally`-entry variables from the value captured by
the pumps, if any (both pumps write the pair `(code, reason)`
together), and the dialed upstream connection, if any. -/
def mkWsVars (pumpCap : Option (Nat × String)) (t : Option TargetWs) : WsVars :=
  { ws_close_code := pumpCap.map (fun p => p.1)
    ws_close_reason := pumpCap.map (fun p => p.2)
    target_ws := t }

/-- Embeds the first statement of the `finally` block: when no pump
captured a close code and an upstream connection exists, both
variables are overwritten from the upstream connection's own close
attributes (`close_reason or ""`). -/
def finallyCloseVars (v : WsVars) : WsVars :=
  match v.ws_close_code, v.target_ws with
  | none, some t =>
      { v with ws_close_code := t.close_code
               ws_close_reason := some (t.close_reason.getD "") }
  | _, _ => v

/-- Classification of the close logging branch of the `finally`
block: code still `None` means a plain normal close, 1000 a successful
close, anything else a coded close with an optional reason suffix. -/
inductive CloseClass where
  | normalClose
  | successClose
  | codedClose (code : Nat) (reason : String)
deriving DecidableEq

/-- Embeds the three-way branch on `ws_close_code` in the `finally`
block of `proxy_websocket`. -/
def classifyClose (code : Option Nat) (reason : Option String) : CloseClass :=
  match code with
  | none => CloseClass.normalClose
  | some 1000 => CloseClass.successClose
  | some c => CloseClass.codedClose c (reason.getD "")

/-! Shutdown coordinator and connection registry: a small-step
transition system over the mutable state of one `ProxyManager`
instance.  Sessions are identified by natural numbers; the per-session
control point tracks the position of that session's coroutine inside
`proxy_websocket`.  Registry insertion and removal are single
transitions, which embeds their mutual exclusion under `_ws_lock`. -/

/-- Control point of one WebSocket session coroutine inside
`proxy_websocket`. -/
inductive Phase where
  | idle
  | started
  | accepted
  | opened
  | done
deriving DecidableEq

/-- Global state: the `ProxyManager` fields plus every session's
control point. -/
structure SysState where
  pm : ProxyManager
  phase : ℕ → Phase

/-- Embeds the first effect of `ProxyManager.shutdown`: the
`accepting_connections` gate is assigned `False` (the registry is not
modified by `shutdown` itself; cancelled sessions deregister
themselves in their `finally` blocks). -/
def shutdownGate (s : SysState) : SysState :=
  { s with pm := { s.pm with accepting_connections := false } }

/-- Small-step transitions of the proxy instance, one per statement of
the source that touches the shared mutable state:
upgrade arrival, the gate rejection in `proxy_websocket`, `accept()`,
dial success with registration under `_ws_lock`, dial failure followed
by the `finally` discard, session end with the `finally` discard, an
HTTP relay call (which reads but never writes the shared state), and
`shutdown`'s gate assignment. -/
inductive Step : SysState → SysState → Prop where
  | arrive (s : SysState) (sid : ℕ) :
      s.phase sid = Phase.idle →
      Step s { s with phase := Function.update s.phase sid Phase.started }
  | wsReject (s : SysState) (sid : ℕ) :
      s.phase sid = Phase.started →
      s.pm.accepting_connections = false →
      Step s { s with phase := Function.update s.phase sid Phase.done }
  | wsAccept (s : SysState) (sid : ℕ) :
      s.phase sid = Phase.started →
      s.pm.accepting_connections = true →
      Step s { s with phase := Function.update s.phase sid Phase.accepted }
  | dialOk (s : SysState) (sid : ℕ) :
      s.phase sid = Phase.accepted →
      Step s { pm := { s.pm with active_websockets := insert sid s.pm.active_websockets }
               phase := Function.update s.phase sid Phase.opened }
  | dialFail (s : SysState) (sid : ℕ) :
      s.phase sid = Phase.accepted →
      Step s { pm := { s.pm with active_websockets := s.pm.active_websockets.erase sid }
               phase := Function.update s.phase sid Phase.done }
  | wsClose (s : SysState) (sid : ℕ) :
      s.phase sid = Phase.opened →
      Step s { pm := { s.pm with active_websockets := s.pm.active_websockets.erase sid }
               phase := Function.update s.phase sid Phase.done }
  | httpCall (s : SysState) :
      Step s s
  | shutdownCall (s : SysState) :
      Step s (shutdownGate s)

/-- Embeds a freshly constructed proxy: `__init__` state and every
session coroutine not yet started. -/
def initSys (frontend backend apiPre : String) : SysState :=
  { pm := ProxyManager.init frontend backend apiPre
    phase := fun _ => Phase.idle }

/-- Registry invariant: a session id is registered exactly when its
session is in the `opened` control point. -/
def RegistryInv (s : SysState) : Prop :=
  ∀ sid, sid ∈ s.pm.active_websockets ↔ s.phase sid = Phase.opened

/-! Helper lemmas about the embedded dict operations and the
transition system. -/

/-- Every key of `dictSet d k v` is a key of `d` or is `k`. -/
lemma dictSet_keys {P : String → Prop} (k v : String) :
    ∀ (d : List (String × String)), (∀ kv ∈ d, P kv.1) → P k →
      ∀ kv ∈ dictSet d k v, P kv.1 := by
  intro d
  induction d with
  | nil =>
      intro _ hk kv hkv
      simp only [dictSet, List.mem_singleton] at hkv
      subst hkv
      exact hk
  | cons a rest ih =>
      intro hd hk kv hkv
      simp only [dictSet] at hkv
      by_cases ha : a.1 = k
      · rw [if_pos ha] at hkv
        rcases List.mem_cons.mp hkv with rfl | hmem
        · exact hk
        · exact hd kv (List.mem_cons_of_mem a hmem)
      · rw [if_neg ha] at hkv
        rcases List.mem_cons.mp hkv with rfl | hmem
        · exact hd _ (List.mem_cons_self _ _)
        · exact ih (fun kv h => hd kv (List.mem_cons_of_mem a h)) hk kv hmem

/-- Every key of `dictOfItems items` (starting from accumulator `d`)
is a key of `d` or of `items`. -/
lemma foldl_dictSet_keys {P : String → Prop} :
    ∀ (items d : List (String × String)),
      (∀ kv ∈ d, P kv.1) → (∀ kv ∈ items, P kv.1) →
      ∀ kv ∈ items.foldl (fun d kv => dictSet d kv.1 kv.2) d, P kv.1 := by
  intro items
  induction items with
  | nil =>
      intro d hd _ kv hkv
      exact hd kv hkv
  | cons a rest ih =>
      intro d hd hitems kv hkv
      simp only [List.foldl_cons] at hkv
      exact ih _ (dictSet_keys a.1 a.2 d hd (hitems a (List.mem_cons_self a rest)))
        (fun kv h => hitems kv (List.mem_cons_of_mem a h)) kv hkv

/-- Lookup on a cons cell of the embedded dict. -/
lemma dictLookup_cons (a : String × String) (rest : List (String × String)) (k' : String) :
    dictLookup (a :: rest) k' = if a.1 = k' then some a.2 else dictLookup rest k' := by
  by_cases h : a.1 = k' <;> simp [dictLookup, List.find?_cons, h]

/-- Lookup on the empty embedded dict. -/
lemma dictLookup_nil (k' : String) : dictLookup [] k' = none := rfl

/-- Lookup after a dict assignment: the assigned key reads back the
assigned value, any other key is unaffected. -/
lemma dictLookup_dictSet (k v k' : String) :
    ∀ d : List (String × String),
      dictLookup (dictSet d k v) k' = if k' = k then some v else dictLookup d k' := by
  intro d
  induction d with
  | nil =>
      by_cases h : k' = k
      · subst h
        simp [dictSet, dictLookup_cons, dictLookup_nil]
      · simp [dictSet, dictLookup_cons, dictLookup_nil, h, Ne.symm h]
  | cons a rest ih =>
      by_cases ha : a.1 = k
      · simp only [dictSet, if_pos ha]
        by_cases h : k' = k
        · subst h
          simp [dictLookup_cons]
        · have ha' : a.1 ≠ k' := by rw [ha]; exact Ne.symm h
          simp [dictLookup_cons, h, Ne.symm h, ha']
      · simp only [dictSet, if_neg ha]
        rw [dictLookup_cons, dictLookup_cons, ih]
        by_cases h : k' = k
        · subst h
          have ha' : a.1 ≠ k' := ha
          simp [ha']
        · simp [h]

/-- The response-header copy loop only ever emits keys whose
lowercasing is outside the hop-by-hop set. -/
lemma filterResponseHeaders_keys :
    ∀ (hs d : List (String × String)),
      (∀ kv ∈ d, ¬(pyLower kv.1 ∈ hopByHop)) →
      ∀ kv ∈ hs.foldl
          (fun d kv => if hopByHop.contains (pyLower kv.1) then d else dictSet d kv.1 kv.2) d,
        ¬(pyLower kv.1 ∈ hopByHop) := by
  intro hs
  induction hs with
  | nil =>
      intro d hd kv hkv
      exact hd kv hkv
  | cons a rest ih =>
      intro d hd kv hkv
      simp only [List.foldl_cons] at hkv
      by_cases hc : hopByHop.contains (pyLower a.1) = true
      · rw [if_pos hc] at hkv
        exact ih d hd kv hkv
      · rw [if_neg hc] at hkv
        refine ih _ (dictSet_keys (P := fun s => ¬(pyLower s ∈ hopByHop)) a.1 a.2 d hd ?_) kv hkv
        intro hmem
        exact hc (by simpa using hmem)

/-- Every key of the outbound header dict avoids the hop-by-hop set
and `host` (case-insensitively). -/
lemma buildForwardHeaders_keys (pm : ProxyManager) (req : Request) :
    ∀ kv ∈ buildForwardHeaders pm req,
      ¬(pyLower kv.1 ∈ hopByHop) ∧ pyLower kv.1 ≠ "host" := by
  unfold buildForwardHeaders
  have hbase : ∀ kv ∈ req.headers.filter
      (fun kv => !(hopByHop.contains (pyLower kv.1)) && pyLower kv.1 != "host"),
      ¬(pyLower kv.1 ∈ hopByHop) ∧ pyLower kv.1 ≠ "host" := by
    intro kv hkv
    have h := (List.mem_filter.mp hkv).2
    rw [Bool.and_eq_true, Bool.not_eq_true', bne_iff_ne] at h
    exact ⟨fun hmem => by rw [show hopByHop.contains (pyLower kv.1) = true by simpa using hmem] at h; exact absurd h.1 (by simp), h.2⟩
  have h0 := foldl_dictSet_keys (P := fun s => ¬(pyLower s ∈ hopByHop) ∧ pyLower s ≠ "host")
    _ [] (by intro kv hkv; cases hkv) hbase
  have h1 := dictSet_keys (P := fun s => ¬(pyLower s ∈ hopByHop) ∧ pyLower s ≠ "host")
    "x-forwarded-for" (match req.clientHost with | some h => h | none => "unknown")
    _ h0 (by constructor <;> decide)
  have h2 := dictSet_keys (P := fun s => ¬(pyLower s ∈ hopByHop) ∧ pyLower s ≠ "host")
    "x-forwarded-proto" req.scheme _ h1 (by constructor <;> decide)
  have h3 := dictSet_keys (P := fun s => ¬(pyLower s ∈ hopByHop) ∧ pyLower s ≠ "host")
    "x-forwarded-host" (starletteHeadersGet req.headers "host" "")
    _ h2 (by constructor <;> decide)
  by_cases hapi : pm.isApiRoute req.path
  · simpa [hapi] using h3
  · simp only [Bool.not_eq_true] at hapi
    simpa [hapi] using dictSet_keys (P := fun s => ¬(pyLower s ∈ hopByHop) ∧ pyLower s ≠ "host")
      APX_DEV_PROXY_HEADER "true" _ h3 (by constructor <;> decide)

/-- Gate monotonicity: no transition of the proxy instance ever sets
the `accepting_connections` gate back to `true`. -/
lemma gate_false_preserved {s s' : SysState} (h : Step s s')
    (hg : s.pm.accepting_connections = false) : s'.pm.accepting_connections = false := by
  cases h <;> simp_all [shutdownGate]

/-- The registry invariant holds in the freshly constructed state. -/
lemma registryInv_init (fe be ap : String) : RegistryInv (initSys fe be ap) := by
  intro sid
  simp [initSys, ProxyManager.init, RegistryInv]

/-- The registry invariant is preserved by every transition. -/
lemma registryInv_step {s s' : SysState} (h : Step s s') (hi : RegistryInv s) :
    RegistryInv s' := by
  cases h with
  | arrive sid hp =>
      intro x
      show x ∈ s.pm.active_websockets
        ↔ Function.update s.phase sid Phase.started x = Phase.opened
      rcases eq_or_ne x sid with rfl | hx
      · rw [Function.update_same, hi x, hp]
        decide
      · rw [Function.update_noteq hx]
        exact hi x
  | wsReject sid hp hg =>
      intro x
      show x ∈ s.pm.active_websockets
        ↔ Function.update s.phase sid Phase.done x = Phase.opened
      rcases eq_or_ne x sid with rfl | hx
      · rw [Function.update_same, hi x, hp]
        decide
      · rw [Function.update_noteq hx]
        exact hi x
  | wsAccept sid hp hg =>
      intro x
      show x ∈ s.pm.active_websockets
        ↔ Function.update s.phase sid Phase.accepted x = Phase.opened
      rcases eq_or_ne x sid with rfl | hx
      · rw [Function.update_same, hi x, hp]
        decide
      · rw [Function.update_noteq hx]
        exact hi x
  | dialOk sid hp =>
      intro x
      show x ∈ insert sid s.pm.active_websockets
        ↔ Function.update s.phase sid Phase.opened x = Phase.opened
      rcases eq_or_ne x sid with rfl | hx
      · rw [Function.update_same]
        simp [Finset.mem_insert]
      · rw [Function.update_noteq hx]
        simp only [Finset.mem_insert, hx, false_or]
        exact hi x
  | dialFail sid hp =>
      intro x
      show x ∈ s.pm.active_websockets.erase sid
        ↔ Function.update s.phase sid Phase.done x = Phase.opened
      rcases eq_or_ne x sid with rfl | hx
      · rw [Function.update_same]
        simp [Finset.mem_erase]
      · rw [Function.update_noteq hx]
        simp only [Finset.mem_erase, ne_eq, hx, not_false_eq_true, true_and]
        exact hi x
  | wsClose sid hp =>
      intro x
      show x ∈ s.pm.active_websockets.erase sid
        ↔ Function.update s.phase sid Phase.done x = Phase.opened
      rcases eq_or_ne x sid with rfl | hx
      · rw [Function.update_same]
        simp [Finset.mem_erase]
      · rw [Function.update_noteq hx]
        simp only [Finset.mem_erase, ne_eq, hx, not_false_eq_true, true_and]
        exact hi x
  | httpCall => exact hi
  | shutdownCall => intro x; exact hi x

/-- The registry invariant holds in every reachable state. -/
lemma registryInv_reachable (fe be ap : String) {s : SysState}
    (h : Relation.ReflTransGen Step (initSys fe be ap) s) : RegistryInv s := by
  induction h with
  | refl => exact registryInv_init fe be ap
  | tail _ hstep ih => exact registryInv_step hstep ih

/-! Concrete instances used by witnesses and counterexamples. -/

/-- Demo configuration: the scenario configuration of the spec
(frontend `http://localhost:5173`, backend `http://localhost:8000`,
API path marker `/api`). -/
def pm0 : ProxyManager :=
  ProxyManager.init "http://localhost:5173" "http://localhost:8000" "/api"

/-- Demo proxy instance on which `shutdown` has run: gate closed. -/
def pmClosed : ProxyManager :=
  { pm0 with accepting_connections := false }

/-- Demo API request with no inbound headers. -/
def req0 : Request :=
  { method := "GET"
    path := "/api/slow"
    query := ""
    scheme := "http"
    headers := []
    clientHost := some "127.0.0.1"
    body := [] }

/-- Demo UI request whose inbound connection has no client address. -/
def reqNoClient : Request :=
  { method := "GET"
    path := "/index.html"
    query := ""
    scheme := "http"
    headers := [("Host", "localhost:9000"), ("Connection", "keep-alive")]
    clientHost := none
    body := [] }

/-- Demo upstream response headers containing a hop-by-hop entry. -/
def rhs0 : List (String × String) :=
  [("content-type", "text/html"), ("Connection", "keep-alive")]

/-- Demo global state: fresh instance. -/
def sysDemo0 : SysState :=
  initSys "http://localhost:5173" "http://localhost:8000" "/api"

/-- Demo global state: session 0 arrived. -/
def sysDemo1 : SysState :=
  { sysDemo0 with phase := Function.update sysDemo0.phase 0 Phase.started }

/-- Demo global state: session 0 accepted. -/
def sysDemo2 : SysState :=
  { sysDemo1 with phase := Function.update sysDemo1.phase 0 Phase.accepted }

/-- Demo global state: session 0 dialed and registered. -/
def sysDemo3 : SysState :=
  { pm := { sysDemo2.pm with active_websockets := insert 0 sysDemo2.pm.active_websockets }
    phase := Function.update sysDemo2.phase 0 Phase.opened }

/-- Demo global state with the gate closed. -/
def sysClosed : SysState :=
  { pm := pmClosed, phase := fun _ => Phase.idle }

/-! Claim theorems. -/

/-- C1 counterexample: with the configuration of the claim's example
(API path marker `/api`), `resolve("/apiabc")` is the BACKEND url, not
the FRONTEND url: `_get_target_url` performs a plain `startswith`
comparison with no boundary requirement. -/
theorem C1_counterexample :
    pm0.getTargetUrl "/apiabc" = "http://localhost:8000"
  ∧ pm0.backend_url = "http://localhost:8000"
  ∧ pm0.frontend_url = "http://localhost:5173"
  ∧ ("http://localhost:8000" : String) ≠ "http://localhost:5173" := by
  refine ⟨rfl, rfl, rfl, ?_⟩
  decide

/-- C1 (amended): `resolve(P)` returns BACKEND iff `P` starts with the
configured API path marker as a literal character sequence (the marker
is right-stripped of `/` once at construction), with no boundary
requirement: `/api/version` and `/apiabc` both resolve to BACKEND, `/`
to FRONTEND. -/
theorem C1_resolve_literal :
    (∀ fe be ap path, pyRstripSlash be ≠ pyRstripSlash fe →
      (((ProxyManager.init fe be ap).getTargetUrl path
          = (ProxyManager.init fe be ap).backend_url)
        ↔ pyStartsWith path (pyRstripSlash ap) = true))
  ∧ (∀ fe be ap path, pyRstripSlash be ≠ pyRstripSlash fe →
      (((ProxyManager.init fe be ap).getTargetUrl path
          = (ProxyManager.init fe be ap).frontend_url)
        ↔ pyStartsWith path (pyRstripSlash ap) = false))
  ∧ pm0.getTargetUrl "/api/version" = pm0.backend_url
  ∧ pm0.getTargetUrl "/" = pm0.frontend_url
  ∧ pm0.getTargetUrl "/apiabc" = pm0.backend_url := by
  refine ⟨?_, ?_, rfl, rfl, rfl⟩
  · intro fe be ap path hne
    show (if pyStartsWith path (pyRstripSlash ap) then pyRstripSlash be else pyRstripSlash fe)
        = pyRstripSlash be ↔ _
    by_cases h : pyStartsWith path (pyRstripSlash ap) = true
    · simp [h]
    · rw [Bool.not_eq_true] at h
      simp only [h, Bool.false_eq_true, if_false]
      exact ⟨fun hc => absurd hc.symm hne, fun hc => absurd hc (by simp)⟩
  · intro fe be ap path hne
    show (if pyStartsWith path (pyRstripSlash ap) then pyRstripSlash be else pyRstripSlash fe)
        = pyRstripSlash fe ↔ _
    by_cases h : pyStartsWith path (pyRstripSlash ap) = true
    · simp only [h, if_true]
      exact ⟨fun hc => absurd hc hne, fun hc => absurd hc (by simp)⟩
    · rw [Bool.not_eq_true] at h
      simp [h]

/-- C1 witness: the amended resolver characterization applied at the
spec's scenario configuration and path `/api/version`. -/
theorem C1_witness :
    ((ProxyManager.init "http://localhost:5173" "http://localhost:8000" "/api").getTargetUrl
        "/api/version"
      = (ProxyManager.init "http://localhost:5173" "http://localhost:8000" "/api").backend_url)
    ↔ pyStartsWith "/api/version" (pyRstripSlash "/api") = true :=
  C1_resolve_literal.1 "http://localhost:5173" "http://localhost:8000" "/api" "/api/version"
    (by decide)

/-- C2 counterexample: on an upstream timeout, `proxy_http_streaming`
returns status 500 (its handler chain lacks a
`httpx.TimeoutException` branch), while `proxy_http` returns 504, so
the two operations do not share the claimed timeout mapping. -/
theorem C2_counterexample :
    (pm0.proxy_http_streaming req0 (UpstreamOutcome.timeoutExc "timed out")).1.status = 500
  ∧ (pm0.proxy_http req0 (UpstreamOutcome.timeoutExc "timed out")).1.status = 504
  ∧ (500 : Nat) ≠ 504 := by
  refine ⟨rfl, rfl, ?_⟩
  decide

/-- C2 (amended): while the gate is open, an upstream timeout makes
`forward` return 504 with body `"Request timed out"`, but
`forwardStreaming` — whose `try` block is followed only by
`except httpx.ConnectError` and `except Exception` — returns 500 with
body `"Proxy error: <text>"`; the error-to-status mapping of the two
operations therefore differs on timeouts. -/
theorem C2_timeout_mapping (pm : ProxyManager) (req : Request) (msg : String)
    (h : pm.accepting_connections = true) :
    (pm.proxy_http req (UpstreamOutcome.timeoutExc msg)).1
      = ⟨504, RespBody.text "Request timed out", [], some "text/plain"⟩
  ∧ (pm.proxy_http_streaming req (UpstreamOutcome.timeoutExc msg)).1
      = ⟨500, RespBody.text ("Proxy error: " ++ msg), [], some "text/plain"⟩ := by
  constructor <;> simp [ProxyManager.proxy_http, ProxyManager.proxy_http_streaming, h]

/-- C2 witness: the amended timeout mapping at a concrete open-gate
instance and request. -/
theorem C2_witness :
    (pm0.proxy_http req0 (UpstreamOutcome.timeoutExc "timed out")).1
      = ⟨504, RespBody.text "Request timed out", [], some "text/plain"⟩
  ∧ (pm0.proxy_http_streaming req0 (UpstreamOutcome.timeoutExc "timed out")).1
      = ⟨500, RespBody.text ("Proxy error: " ++ "timed out"), [], some "text/plain"⟩ :=
  C2_timeout_mapping pm0 req0 "timed out" rfl

/-- C3: once the `accepting_connections` gate is false, every
`proxy_http` / `proxy_http_streaming` call returns 503 with body
`"Server is shutting down"` and issues no outbound request, every
WebSocket upgrade is rejected with close code 1001; `shutdown` sets
the gate false, and no transition of the instance ever sets it back,
so this holds for the remaining lifetime of the instance. -/
theorem C3_shutdown_rejects (pm : ProxyManager) (req : Request) (up : UpstreamOutcome)
    (h : pm.accepting_connections = false) :
    pm.proxy_http req up
      = (⟨503, RespBody.text "Server is shutting down", [], some "text/plain"⟩, none)
  ∧ pm.proxy_http_streaming req up
      = (⟨503, RespBody.text "Server is shutting down", [], some "text/plain"⟩, none)
  ∧ pm.ws_gate = WsUpgradeDecision.rejected 1001 "Server is shutting down"
  ∧ (∀ s : SysState, (shutdownGate s).pm.accepting_connections = false)
  ∧ (∀ s s' : SysState, Step s s' → s.pm.accepting_connections = false →
      s'.pm.accepting_connections = false) := by
  refine ⟨?_, ?_, ?_, fun s => rfl, fun s s' hst hg => gate_false_preserved hst hg⟩ <;>
    simp [ProxyManager.proxy_http, ProxyManager.proxy_http_streaming, ProxyManager.ws_gate, h]

/-- C3 witness: the closed-gate behavior at a concrete shut-down
instance and request. -/
theorem C3_witness :
    pmClosed.proxy_http req0 (UpstreamOutcome.ok 200 [] [])
      = (⟨503, RespBody.text "Server is shutting down", [], some "text/plain"⟩, none)
  ∧ pmClosed.proxy_http_streaming req0 (UpstreamOutcome.ok 200 [] [])
      = (⟨503, RespBody.text "Server is shutting down", [], some "text/plain"⟩, none)
  ∧ pmClosed.ws_gate = WsUpgradeDecision.rejected 1001 "Server is shutting down"
  ∧ (∀ s : SysState, (shutdownGate s).pm.accepting_connections = false)
  ∧ (∀ s s' : SysState, Step s s' → s.pm.accepting_connections = false →
      s'.pm.accepting_connections = false) :=
  C3_shutdown_rejects pmClosed req0 (UpstreamOutcome.ok 200 [] []) rfl

/-- C4: the gate is true at construction, and no transition of the
proxy instance — neither a single step nor any sequence of steps —
ever moves it from false back to true. -/
theorem C4_gate_one_way :
    (∀ fe be ap, (initSys fe be ap).pm.accepting_connections = true)
  ∧ (∀ s s' : SysState, Step s s' → s.pm.accepting_connections = false →
      s'.pm.accepting_connections = false)
  ∧ (∀ s s' : SysState, Relation.ReflTransGen Step s s' →
      s.pm.accepting_connections = false → s'.pm.accepting_connections = false) := by
  refine ⟨fun fe be ap => rfl, fun s s' h hg => gate_false_preserved h hg, ?_⟩
  intro s s' h
  induction h with
  | refl => exact fun hg => hg
  | tail _ hstep ih => exact fun hg => gate_false_preserved hstep (ih hg)

/-- C4 witness: the one-way transition applied across a concrete
`shutdown` step from a concrete closed-gate state. -/
theorem C4_witness : (shutdownGate sysClosed).pm.accepting_connections = false :=
  C4_gate_one_way.2.1 sysClosed (shutdownGate sysClosed) (Step.shutdownCall sysClosed) rfl

/-- C5: in every reachable state of the proxy instance, the registry
equals the set of sessions currently in the `opened` control point —
each session is inserted by the transition that completes its upstream
dial and removed by the single transition that ends it (insert and
remove are whole transitions, embedding their mutual exclusion under
`_ws_lock`) — so its cardinality equals the number of open WebSocket
sessions drawn from any domain containing them. -/
theorem C5_registry_cardinality (fe be ap : String) (s : SysState)
    (h : Relation.ReflTransGen Step (initSys fe be ap) s)
    (dom : Finset ℕ) (hdom : ∀ sid, s.phase sid = Phase.opened → sid ∈ dom) :
    s.pm.active_websockets = dom.filter (fun sid => s.phase sid = Phase.opened)
  ∧ s.pm.active_websockets.card
      = (dom.filter (fun sid => s.phase sid = Phase.opened)).card := by
  have hi := registryInv_reachable fe be ap h
  have hset : s.pm.active_websockets = dom.filter (fun sid => s.phase sid = Phase.opened) := by
    ext x
    rw [Finset.mem_filter]
    constructor
    · intro hx
      have hph := (hi x).mp hx
      exact ⟨hdom x hph, hph⟩
    · intro hx
      exact (hi x).mpr hx.2
  exact ⟨hset, by rw [hset]⟩

/-- C5 witness: the registry equality evaluated on the concrete
reachable state in which session 0 has arrived, been accepted, dialed
and been registered. -/
theorem C5_witness :
    sysDemo3.pm.active_websockets
        = ({0} : Finset ℕ).filter (fun sid => sysDemo3.phase sid = Phase.opened)
  ∧ sysDemo3.pm.active_websockets.card
        = (({0} : Finset ℕ).filter (fun sid => sysDemo3.phase sid = Phase.opened)).card :=
  C5_registry_cardinality "http://localhost:5173" "http://localhost:8000" "/api" sysDemo3
    (Relation.ReflTransGen.tail
      (Relation.ReflTransGen.tail
        (Relation.ReflTransGen.tail Relation.ReflTransGen.refl
          (Step.arrive sysDemo0 0 rfl))
        (Step.wsAccept sysDemo1 0 rfl rfl))
      (Step.dialOk sysDemo2 0 rfl))
    {0}
    (fun sid h => by
      rcases eq_or_ne sid 0 with rfl | hne
      · exact Finset.mem_singleton_self _
      · rw [show sysDemo3.phase sid = Phase.idle from by
            simp [sysDemo3, sysDemo2, sysDemo1, sysDemo0, initSys,
              Function.update_noteq hne]] at h
        exact absurd h (by decide))

/-- C6 counterexample: for the UI file path `/assets/logo.png`,
`_log_request_error` emits nothing — the error line is suppressed by
the same UI-file skip as the success line, contradicting the claim
that errors for such requests are still logged. -/
theorem C6_counterexample :
    pm0.log_request_error "GET" "/assets/logo.png" 502 "Connection failed to ui" 3 = none
  ∧ pm0.log_request "GET" "/assets/logo.png" 200 3 = none := by
  exact ⟨rfl, rfl⟩

/-- C6 (amended): for every request whose path resolves to the UI
upstream and looks like a file (last segment with a short alphanumeric
extension), both the normal request log line and the error log line
are suppressed — `_log_request_error` applies the same skip as
`_log_request`. -/
theorem C6_ui_file_suppression (pm : ProxyManager) (method path : String)
    (status_code duration_ms : Nat) (error : String)
    (h1 : pm.getTargetName path = "ui") (h2 : is_file_path path = true) :
    pm.log_request method path status_code duration_ms = none
  ∧ pm.log_request_error method path status_code error duration_ms = none := by
  constructor <;> simp [ProxyManager.log_request, ProxyManager.log_request_error, h1, h2]

/-- C6 witness: the suppression of both lines at the concrete UI file
path `/assets/logo.png`. -/
theorem C6_witness :
    pm0.log_request "GET" "/assets/logo.png" 200 3 = none
  ∧ pm0.log_request_error "GET" "/assets/logo.png" 502 "Connection failed to ui" 3 = none :=
  C6_ui_file_suppression pm0 "GET" "/assets/logo.png" 200 3 "Connection failed to ui" rfl rfl

/-- C7: no key of the outbound header dict lowercases into the
hop-by-hop set or into `host`, no key of the relayed response headers
lowercases into the hop-by-hop set, and both relays (when the gate is
open) send exactly the constructed outbound headers and return exactly
the filtered response headers. -/
theorem C7_hop_by_hop (pm : ProxyManager) (req : Request) (rhs : List (String × String))
    (k v : String) (hk : (k, v) ∈ buildForwardHeaders pm req)
    (k2 v2 : String) (hk2 : (k2, v2) ∈ filterResponseHeaders rhs)
    (hacc : pm.accepting_connections = true)
    (up : UpstreamOutcome) (st : Nat) (body : List Nat) :
    (¬(pyLower k ∈ hopByHop) ∧ pyLower k ≠ "host")
  ∧ ¬(pyLower k2 ∈ hopByHop)
  ∧ (pm.buildOutbound req).headers = buildForwardHeaders pm req
  ∧ (pm.proxy_http req up).2 = some (pm.buildOutbound req)
  ∧ (pm.proxy_http_streaming req up).2 = some (pm.buildOutbound req)
  ∧ (pm.proxy_http req (UpstreamOutcome.ok st rhs body)).1.headers = filterResponseHeaders rhs
  ∧ (pm.proxy_http_streaming req (UpstreamOutcome.ok st rhs body)).1.headers
      = filterResponseHeaders rhs := by
  refine ⟨buildForwardHeaders_keys pm req (k, v) hk,
    filterResponseHeaders_keys rhs [] (by intro kv hkv; cases hkv) (k2, v2) hk2,
    rfl, ?_, ?_, ?_, ?_⟩ <;>
    simp [ProxyManager.proxy_http, ProxyManager.proxy_http_streaming, hacc]

/-- C7 witness: the hop-by-hop exclusion evaluated at a concrete
request carrying a `Connection` header and a concrete upstream
response carrying one. -/
theorem C7_witness :
    (¬(pyLower "x-forwarded-for" ∈ hopByHop) ∧ pyLower "x-forwarded-for" ≠ "host")
  ∧ ¬(pyLower "content-type" ∈ hopByHop)
  ∧ (pm0.buildOutbound reqNoClient).headers = buildForwardHeaders pm0 reqNoClient
  ∧ (pm0.proxy_http reqNoClient (UpstreamOutcome.connectError "refused")).2
      = some (pm0.buildOutbound reqNoClient)
  ∧ (pm0.proxy_http_streaming reqNoClient (UpstreamOutcome.connectError "refused")).2
      = some (pm0.buildOutbound reqNoClient)
  ∧ (pm0.proxy_http reqNoClient (UpstreamOutcome.ok 200 rhs0 [])).1.headers
      = filterResponseHeaders rhs0
  ∧ (pm0.proxy_http_streaming reqNoClient (UpstreamOutcome.ok 200 rhs0 [])).1.headers
      = filterResponseHeaders rhs0 :=
  C7_hop_by_hop pm0 reqNoClient rhs0
    "x-forwarded-for" "unknown" (by decide)
    "content-type" "text/html" (by decide)
    rfl (UpstreamOutcome.connectError "refused") 200 []

/-- C8: when the gate is open and the upstream connection is refused,
both relays return 502 with a body naming the failed target, which is
`"api"` exactly when the path resolves to the API upstream and `"ui"`
otherwise. -/
theorem C8_connect_error (pm : ProxyManager) (req : Request) (msg : String)
    (h : pm.accepting_connections = true) :
    (pm.proxy_http req (UpstreamOutcome.connectError msg)).1
      = ⟨502, RespBody.text ("Failed to connect to " ++ pm.getTargetName req.path ++ " server"),
          [], some "text/plain"⟩
  ∧ (pm.proxy_http_streaming req (UpstreamOutcome.connectError msg)).1
      = ⟨502, RespBody.text ("Failed to connect to " ++ pm.getTargetName req.path ++ " server"),
          [], some "text/plain"⟩
  ∧ (pm.isApiRoute req.path = true → pm.getTargetName req.path = "api")
  ∧ (pm.isApiRoute req.path = false → pm.getTargetName req.path = "ui") := by
  refine ⟨?_, ?_, fun hapi => ?_, fun hapi => ?_⟩
  · simp [ProxyManager.proxy_http, h]
  · simp [ProxyManager.proxy_http_streaming, h]
  · simp [ProxyManager.getTargetName, hapi]
  · simp [ProxyManager.getTargetName, hapi]

/-- C8 witness: the 502 body at the concrete API request of the claim
scenario (`backend refuses connection`). -/
theorem C8_witness :
    (pm0.proxy_http req0 (UpstreamOutcome.connectError "refused")).1
      = ⟨502, RespBody.text ("Failed to connect to " ++ pm0.getTargetName req0.path ++ " server"),
          [], some "text/plain"⟩
  ∧ pm0.getTargetName req0.path = "api" :=
  ⟨(C8_connect_error pm0 req0 "refused" rfl).1,
    (C8_connect_error pm0 req0 "refused" rfl).2.2.1 rfl⟩

/-- C9: the reported close code/reason follows the source's
precedence: a pump-captured pair wins; with no pump capture the
upstream connection's own `close_code`/`close_reason` (reason
defaulted to `""`) is used; with no pump capture and no upstream
connection — or an upstream connection whose own code is also absent —
the close is classified as a normal close.  The pump capture itself
defaults a codeless disconnect event to 1000. -/
theorem C9_close_precedence (pumpCap : Option (Nat × String)) (t : Option TargetWs) :
    (∀ c r, pumpCap = some (c, r) →
      finallyCloseVars (mkWsVars pumpCap t)
        = { ws_close_code := some c, ws_close_reason := some r, target_ws := t })
  ∧ (∀ tws, pumpCap = none → t = some tws →
      (finallyCloseVars (mkWsVars pumpCap t)).ws_close_code = tws.close_code
      ∧ (finallyCloseVars (mkWsVars pumpCap t)).ws_close_reason
          = some (tws.close_reason.getD ""))
  ∧ (pumpCap = none → t = none →
      classifyClose (finallyCloseVars (mkWsVars pumpCap t)).ws_close_code
          (finallyCloseVars (mkWsVars pumpCap t)).ws_close_reason = CloseClass.normalClose)
  ∧ (∀ tws, pumpCap = none → t = some tws → tws.close_code = none →
      classifyClose (finallyCloseVars (mkWsVars pumpCap t)).ws_close_code
          (finallyCloseVars (mkWsVars pumpCap t)).ws_close_reason = CloseClass.normalClose)
  ∧ (forward_to_target [WsClientMsg.disconnect none none]).2 = some (1000, "") := by
  refine ⟨?_, ?_, ?_, ?_, rfl⟩
  · rintro c r rfl
    rfl
  · rintro tws rfl rfl
    exact ⟨rfl, rfl⟩
  · rintro rfl rfl
    rfl
  · rintro tws rfl rfl hcode
    show classifyClose tws.close_code (some (tws.close_reason.getD "")) = CloseClass.normalClose
    rw [hcode]
    rfl

set_option maxRecDepth 8192

/-- C9 witness: the precedence applied at a concrete pump-captured
close (code 1006). -/
theorem C9_witness :
    finallyCloseVars (mkWsVars (some (1006, "abnormal")) none)
      = { ws_close_code := some 1006, ws_close_reason := some "abnormal", target_ws := none } :=
  (C9_close_precedence (some (1006, "abnormal")) none).1 1006 "abnormal" rfl

/-- C10: the outbound header dict always carries `x-forwarded-for`
(the client address, or the literal `"unknown"` when the inbound
connection has no client), `x-forwarded-proto` (the inbound scheme)
and `x-forwarded-host` (the inbound Host value), and when the gate is
open both relays send exactly these headers upstream. -/
theorem C10_forwarded_headers (pm : ProxyManager) (req : Request)
    (hacc : pm.accepting_connections = true) (up : UpstreamOutcome) :
    dictLookup (buildForwardHeaders pm req) "x-forwarded-for"
      = some (match req.clientHost with | some h => h | none => "unknown")
  ∧ (req.clientHost = none →
      dictLookup (buildForwardHeaders pm req) "x-forwarded-for" = some "unknown")
  ∧ dictLookup (buildForwardHeaders pm req) "x-forwarded-proto" = some req.scheme
  ∧ dictLookup (buildForwardHeaders pm req) "x-forwarded-host"
      = some (starletteHeadersGet req.headers "host" "")
  ∧ (pm.buildOutbound req).headers = buildForwardHeaders pm req
  ∧ (pm.proxy_http req up).2 = some (pm.buildOutbound req)
  ∧ (pm.proxy_http_streaming req up).2 = some (pm.buildOutbound req) := by
  have hfor : dictLookup (buildForwardHeaders pm req) "x-forwarded-for"
      = some (match req.clientHost with | some h => h | none => "unknown") := by
    unfold buildForwardHeaders
    by_cases hapi : pm.isApiRoute req.path <;>
      simp [hapi, dictLookup_dictSet, APX_DEV_PROXY_HEADER]
  have hproto : dictLookup (buildForwardHeaders pm req) "x-forwarded-proto"
      = some req.scheme := by
    unfold buildForwardHeaders
    by_cases hapi : pm.isApiRoute req.path <;>
      simp [hapi, dictLookup_dictSet, APX_DEV_PROXY_HEADER]
  have hhost : dictLookup (buildForwardHeaders pm req) "x-forwarded-host"
      = some (starletteHeadersGet req.headers "host" "") := by
    unfold buildForwardHeaders
    by_cases hapi : pm.isApiRoute req.path <;>
      simp [hapi, dictLookup_dictSet, APX_DEV_PROXY_HEADER]
  refine ⟨hfor, fun hnone => ?_, hproto, hhost, rfl, ?_, ?_⟩
  · rw [hfor, hnone]
  · simp [ProxyManager.proxy_http, hacc]
  · simp [ProxyManager.proxy_http_streaming, hacc]

/-- C10 witness: the forwarded headers at a concrete request with no
client address: `x-forwarded-for` is the literal `"unknown"`. -/
theorem C10_witness :
    dictLookup (buildForwardHeaders pm0 reqNoClient) "x-forwarded-for" = some "unknown"
  ∧ dictLookup (buildForwardHeaders pm0 reqNoClient) "x-forwarded-proto" = some "http"
  ∧ (pm0.proxy_http reqNoClient (UpstreamOutcome.ok 200 [] [])).2
      = some (pm0.buildOutbound reqNoClient) :=
  ⟨(C10_forwarded_headers pm0 reqNoClient rfl (UpstreamOutcome.ok 200 [] [])).2.1 rfl,
    (C10_forwarded_headers pm0 reqNoClient rfl (UpstreamOutcome.ok 200 [] [])).2.2.1,
    (C10_forwarded_headers pm0 reqNoClient rfl (UpstreamOutcome.ok 200 [] [])).2.2.2.2.2.1⟩

end ApxProxy
